import Mathlib

/-!
Shallow embedding of the news-rss scraper (src/lib.rs and src/main.rs).

External capabilities are modelled as data: the HTTP client is a function
from URLs to fetched documents or transport errors, an HTML document or
selection is a record of the structural-query operations the code uses
(select-many, text, attribute, inner html), and the chrono date library is
a record of the three operations the RTE date parser calls.  Asynchronous
combinators are modelled by their deterministic outcome: try_join_all
returns the ordered list of results when every future succeeds and an
error when any fails, and the select composition in main is a function of
whichever sibling task terminates first.  All machine behaviour relevant
to the claims (error propagation, ordering, cache updates) is preserved.
-/

/-- Url models reqwest::Url restricted to the scheme://host/path shape the
program uses.  The path component always begins with a slash or is empty,
so a rendered Url is an absolute URL. -/
structure Url where
  scheme : String
  host : String
  path : String
deriving DecidableEq, Repr

/-- breakScheme splits a character list at the first occurrence of the
separator colon-slash-slash, returning the parts before and after it. -/
def breakScheme : List Char → Option (List Char × List Char)
  | ':' :: '/' :: '/' :: rest => some ([], rest)
  | c :: rest =>
    match breakScheme rest with
    | some p => some (c :: p.1, p.2)
    | none => none
  | [] => none

/-- Url.parse accepts scheme://host/path with an alphabetic nonempty
scheme, a nonempty host and a single scheme separator, the shape of every
URL the program constructs. -/
def Url.parse (s : String) : Option Url :=
  match breakScheme s.data with
  | none => none
  | some (schemeChars, restChars) =>
    match breakScheme restChars with
    | some _ => none
    | none =>
      let host := restChars.takeWhile (fun c => c != '/')
      let path := restChars.drop host.length
      if schemeChars.length > 0 && schemeChars.all Char.isAlpha && host.length > 0 then
        some { scheme := String.mk schemeChars, host := String.mk host,
               path := String.mk path }
      else none

/-- Url.toString renders the absolute URL text. -/
def Url.toString (u : Url) : String := u.scheme ++ "://" ++ u.host ++ u.path

/-- mergePath implements the RFC 3986 merge of a relative reference: the
reference is appended to the base path with its last segment removed. -/
def mergePath (basePath ref : String) : String :=
  String.mk ((basePath.data.reverse.dropWhile (fun c => c != '/')).reverse) ++ ref

/-- startsWithSlash tests whether a reference is an absolute path. -/
def startsWithSlash (s : String) : Bool :=
  match s.data with
  | '/' :: _ => true
  | _ => false

/-- Url.join models reqwest Url::join for the references the program meets:
an absolute URL replaces the base, an absolute path replaces the base path,
and any other reference is merged relative to the base path. -/
def Url.join (base : Url) (path : String) : Option Url :=
  match Url.parse path with
  | some u => some u
  | none =>
    if startsWithSlash path then
      some { scheme := base.scheme, host := base.host, path := path }
    else
      some { scheme := base.scheme, host := base.host, path := mergePath base.path path }

/-- strTrim mirrors Rust str::trim: leading and trailing whitespace
removed. -/
def strTrim (s : String) : String :=
  String.mk (((s.data.dropWhile Char.isWhitespace).reverse.dropWhile
    Char.isWhitespace).reverse)

/-- NaiveDateTime models chrono::NaiveDateTime as an abstract instant; the
claims never inspect calendar fields. -/
structure NaiveDateTime where
  minutes : Int
deriving DecidableEq, Repr

/-- DateTime models chrono::DateTime of Tz: an instant attached to a named
timezone. -/
structure DateTime where
  naive : NaiveDateTime
  tz : String
deriving DecidableEq, Repr

/-- ScrapeError covers the error kinds the extraction pipeline produces:
transport failures, invalid URL text, a missing required attribute, and a
date-parse failure.  In the Rust source all of these are anyhow errors;
the constructors record the same distinguishing information. -/
inductive ScrapeError where
  | transport (url : String)
  | invalidUrl (text : String)
  | missingAttr (msg : String)
  | dateParse (msg : String)
deriving DecidableEq, Repr

/-- Entry models one nipper Selection produced by iterating the article
selector over the listing document: the operations used on it are
select-then-text and select-then-attribute. -/
structure Entry where
  selText : String → String
  selAttr : String → String → Option String

/-- Doc models a nipper Document: selecting the article selector yields the
ordered list of entries, and the remaining operations are those used on an
article page. -/
structure Doc where
  selMany : String → List Entry
  selText : String → String
  selAttr : String → String → Option String
  selHtml : String → String

/-- Client models the reqwest client as a fetch capability: the composite
get-send-error_for_status-text call followed by Document::from, returning
the parsed document or a transport error. -/
structure Client where
  fetch : Url → Except ScrapeError Doc

/-- Article mirrors the Article struct of src/lib.rs. -/
structure Article where
  headline : String
  link : Url
  body : String
  image : Option Url
  date : DateTime
deriving DecidableEq, Repr

/-- Scraper mirrors the Scraper struct of src/lib.rs: the declarative
source definition plus its date-parsing function. -/
structure Scraper where
  name : String
  base_url : String
  news_url : String
  article_selector : String
  headline_selector : String
  image_selector : Option String
  date_selector : String
  parse_date : String → Except ScrapeError DateTime
  link_selector : String
  body_selector : String

/-- Scraper.url mirrors Scraper::url: parse the base URL (the source
expects it to be valid; an invalid base is modelled as an error where the
source panics) and join the given path against it. -/
def Scraper.url (s : Scraper) (path : String) : Except ScrapeError Url :=
  match Url.parse s.base_url with
  | none => Except.error (ScrapeError.invalidUrl s.base_url)
  | some base =>
    match base.join path with
    | some u => Except.ok u
    | none => Except.error (ScrapeError.invalidUrl path)

/-- try_join_all models futures::future::try_join_all on the list of the
deterministic outcomes of the spawned futures: if every future resolves Ok
the results are collected in the order of the input list (the join pairs
each result with its originating index), and if any future fails the whole
join resolves to an error.  Which failing future supplies the error value
is timing dependent in Rust; the model returns the first in list order,
and no claim depends on which error is reported. -/
def try_join_all {ε α : Type} : List (Except ε α) → Except ε (List α)
  | [] => Except.ok []
  | x :: xs =>
    match x with
    | Except.error e => Except.error e
    | Except.ok a =>
      match try_join_all xs with
      | Except.error e => Except.error e
      | Except.ok rest => Except.ok (a :: rest)

/-- imageOf models the image block of Scraper::get_article: when an image
selector is configured, the src attribute of its match is required and
parsed as a URL; otherwise there is no image. -/
def imageOf (s : Scraper) (document : Doc) : Except ScrapeError (Option Url) :=
  match s.image_selector with
  | none => Except.ok none
  | some sel =>
    match document.selAttr sel "src" with
    | none => Except.error (ScrapeError.missingAttr "Expect image to have src")
    | some src =>
      match Url.parse src with
      | none => Except.error (ScrapeError.invalidUrl src)
      | some u => Except.ok (some u)

/-- Scraper.get_article mirrors Scraper::get_article: take the trimmed
headline text from the entry, require the href of the link selector match,
resolve it against the base URL, fetch the article page, and extract body,
optional image and parsed date; each fallible step propagates its error. -/
def Scraper.get_article (s : Scraper) (client : Client) (article : Entry) :
    Except ScrapeError Article :=
  let headline := strTrim (article.selText s.headline_selector)
  match article.selAttr s.link_selector "href" with
  | none => Except.error (ScrapeError.missingAttr "Require article link to have href")
  | some href =>
    match s.url href with
    | Except.error e => Except.error e
    | Except.ok link =>
      match client.fetch link with
      | Except.error e => Except.error e
      | Except.ok document =>
        let body := document.selHtml s.body_selector
        match imageOf s document with
        | Except.error e => Except.error e
        | Except.ok image =>
          match s.parse_date (document.selText s.date_selector) with
          | Except.error e => Except.error e
          | Except.ok date =>
            Except.ok { headline := headline, link := link, body := body,
                        image := image, date := date }

/-- Scraper.get_articles mirrors Scraper::get_articles: fetch the listing
page, select the article entries, and join the per-entry extractions with
try_join_all. -/
def Scraper.get_articles (s : Scraper) (client : Client) :
    Except ScrapeError (List Article) :=
  match s.url s.news_url with
  | Except.error e => Except.error e
  | Except.ok u =>
    match client.fetch u with
    | Except.error e => Except.error e
    | Except.ok news =>
      try_join_all ((news.selMany s.article_selector).map
        (fun article => s.get_article client article))

/-- rteFmt is the strftime pattern the RTE source parses dates with. -/
def rteFmt : String := "Updated / %A, %-d %b %Y %R"

/-- Chrono models the three chrono operations the RTE date parser calls:
NaiveDateTime::parse_from_str for a given text and format, the current
local time in Dublin (Utc::now converted to Europe::Dublin, naive), and
Europe::Dublin.from_local_datetime followed by earliest. -/
structure Chrono where
  parseFromStr : String → String → Option NaiveDateTime
  nowLocalDublin : NaiveDateTime
  dublinFromLocalEarliest : NaiveDateTime → Option DateTime

/-- rte_parse_date mirrors the parse_date closure of the RTE constant:
parse the trimmed text against rteFmt, fall back to the current Dublin
local time when parsing fails (unwrap_or), then map the naive time into
the Dublin timezone taking the earliest interpretation; only a missing
earliest interpretation is an error (context No local date). -/
def rte_parse_date (ch : Chrono) (date : String) : Except ScrapeError DateTime :=
  match ch.dublinFromLocalEarliest
      ((ch.parseFromStr (strTrim date) rteFmt).getD ch.nowLocalDublin) with
  | some dt => Except.ok dt
  | none => Except.error (ScrapeError.dateParse "No local date")

/-- RTE mirrors the RTE constant of src/lib.rs, parameterised by the
chrono capability its date parser uses. -/
def RTE (ch : Chrono) : Scraper :=
  { name := "RTE"
    base_url := "https://www.rte.ie/"
    news_url := "/news/"
    article_selector := ":not(.av-box) ~ .article-meta"
    headline_selector := "span.underline"
    link_selector := "a"
    body_selector := "section.article-body"
    image_selector := none
    date_selector := "span.modified-date"
    parse_date := rte_parse_date ch }

/-- Cache models the shared HashMap from source name to latest article
list, as the association list of its entries. -/
structure Cache where
  map : List (String × List Article)
deriving DecidableEq, Repr

/-- Cache.get models HashMap::get: the value of the first entry with the
given key, if any. -/
def Cache.get (c : Cache) (name : String) : Option (List Article) :=
  match c.map.find? (fun p => p.1 == name) with
  | some p => some p.2
  | none => none

/-- insertAssoc replaces the value at an existing key or appends a new
entry, the observable behaviour of HashMap::insert. -/
def insertAssoc (m : List (String × List Article)) (k : String) (v : List Article) :
    List (String × List Article) :=
  match m with
  | [] => [(k, v)]
  | p :: rest => if p.1 == k then (k, v) :: rest else p :: insertAssoc rest k v

/-- Cache.insert models HashMap::insert. -/
def Cache.insert (c : Cache) (k : String) (v : List Article) : Cache :=
  { map := insertAssoc c.map k v }

/-- Guid models rss::Guid as built by the feed handler. -/
structure Guid where
  value : String
  permalink : Bool
deriving DecidableEq, Repr

/-- Item models the rss item the feed handler builds per article. -/
structure Item where
  title : String
  guid : Guid
  link : String
  pub_date : String
  content : String
deriving DecidableEq, Repr

/-- Channel models the rss channel the feed handler returns: its title and
its ordered items. -/
structure Channel where
  title : String
  items : List Item
deriving DecidableEq, Repr

/-- NOT_FOUND is the numeric value of StatusCode::NOT_FOUND. -/
def NOT_FOUND : Nat := 404

/-- itemOf mirrors the per-article ItemBuilder chain of the feed handler:
title from the headline, guid from the link marked permalink, link from
the link, publication date rendered by to_rfc2822, content from the body. -/
def itemOf (to_rfc2822 : DateTime → String) (article : Article) : Item :=
  { title := article.headline
    guid := { value := article.link.toString, permalink := true }
    link := article.link.toString
    pub_date := to_rfc2822 article.date
    content := article.body }

/-- feed mirrors the feed handler of server in src/main.rs: look the name
up in the cache; when absent return NOT_FOUND with no body, and when
present build the channel titled with the source name from the cached
articles in order.  The rfc2822 rendering of chrono is a parameter. -/
def feed (to_rfc2822 : DateTime → String) (feeds : Cache) (name : String) :
    Except Nat Channel :=
  match feeds.get name with
  | none => Except.error NOT_FOUND
  | some fd => Except.ok { title := name, items := fd.map (itemOf to_rfc2822) }

/-- scrapeCycle mirrors one iteration of the loop in scrape: join the
extractions of every configured source with try_join_all, propagating any
error before the cache is touched, and on success insert every source
result into the cache in order. -/
def scrapeCycle (sources : List Scraper) (client : Client) (out : Cache) :
    Except ScrapeError Cache :=
  match try_join_all (sources.map (fun x => x.get_articles client)) with
  | Except.error e => Except.error e
  | Except.ok articles =>
    Except.ok ((sources.zip articles).foldl (fun c p => c.insert p.1.name p.2) out)

/-- scrapeRun models the scrape loop of src/main.rs run over a sequence of
cycles, one Client per cycle standing for the network state of that cycle;
an exhausted list ends observation of the still-looping task.  A cycle
error propagates immediately: scrape returns the error, the cache is left
as it was, and no later cycle runs. -/
def scrapeRun (sources : List Scraper) (clients : List Client) (out : Cache) :
    Cache × Option ScrapeError :=
  match clients with
  | [] => (out, none)
  | client :: rest =>
    match scrapeCycle sources client out with
    | Except.error e => (out, some e)
    | Except.ok out2 => scrapeRun sources rest out2

/-- TaskEnd records which of the two sibling tasks of main terminated
first, and with which result. -/
inductive TaskEnd (ε : Type) where
  | server (r : Except ε Unit)
  | scrape (r : Except ε Unit)

/-- mainAfterSelect mirrors the select composition in main: whichever
sibling terminates first, its result is taken, the question-mark operator
propagates an error, and otherwise main returns Ok; the other task is
dropped, never continued alone. -/
def mainAfterSelect {ε : Type} (first : TaskEnd ε) : Except ε Unit :=
  match first with
  | TaskEnd.server r =>
    match r with
    | Except.ok _ => Except.ok ()
    | Except.error e => Except.error e
  | TaskEnd.scrape r =>
    match r with
    | Except.ok _ => Except.ok ()
    | Except.error e => Except.error e

/-- dt0 is a fixed concrete timestamp used by the concrete scenarios. -/
def dt0 : DateTime := { naive := { minutes := 0 }, tz := "Europe/Dublin" }

/-- SA is a concrete source used in the refresh-cycle scenarios; in the
scenario client its listing fetch fails. -/
def SA : Scraper :=
  { name := "A", base_url := "https://a.example/", news_url := "/news/"
    article_selector := ".art", headline_selector := ".h", image_selector := none
    date_selector := ".d", parse_date := fun _ => Except.ok dt0
    link_selector := "a", body_selector := ".b" }

/-- SB is a concrete source used in the refresh-cycle scenarios; in the
scenario client its extraction succeeds. -/
def SB : Scraper :=
  { name := "B", base_url := "https://b.example/", news_url := "/news/"
    article_selector := ".art", headline_selector := ".h", image_selector := none
    date_selector := ".d", parse_date := fun _ => Except.ok dt0
    link_selector := "a", body_selector := ".b" }

/-- entryB1 is the single listing entry of source SB. -/
def entryB1 : Entry :=
  { selText := fun _ => " B one "
    selAttr := fun _ attr => if attr == "href" then some "/b1" else none }

/-- docB1 is the article page of the single SB article. -/
def docB1 : Doc :=
  { selMany := fun _ => [], selText := fun _ => "date text"
    selAttr := fun _ _ => none, selHtml := fun _ => "<p>b1</p>" }

/-- docBList is the listing page of source SB. -/
def docBList : Doc :=
  { selMany := fun _ => [entryB1], selText := fun _ => ""
    selAttr := fun _ _ => none, selHtml := fun _ => "" }

/-- urlANews is the listing URL of source SA. -/
def urlANews : Url := { scheme := "https", host := "a.example", path := "/news/" }

/-- urlBNews is the listing URL of source SB. -/
def urlBNews : Url := { scheme := "https", host := "b.example", path := "/news/" }

/-- urlB1 is the URL of the single SB article. -/
def urlB1 : Url := { scheme := "https", host := "b.example", path := "/b1" }

/-- cxClient is the network state of the failing-cycle scenario: the SA
listing fetch fails with a transport error while all SB fetches succeed. -/
def cxClient : Client :=
  { fetch := fun u =>
      if u = urlANews then Except.error (ScrapeError.transport u.toString)
      else if u = urlBNews then Except.ok docBList
      else if u = urlB1 then Except.ok docB1
      else Except.error (ScrapeError.transport u.toString) }

/-- artB1 is the article extracted from entryB1 in the scenario. -/
def artB1 : Article :=
  { headline := "B one", link := urlB1, body := "<p>b1</p>", image := none, date := dt0 }

/-- cache0 is the cache before the scenario cycle: both sources hold an
empty previous article list. -/
def cache0 : Cache := { map := [("A", []), ("B", [])] }

/-- SC2 is a concrete source whose single listing entry lacks an href in
the scenario client. -/
def SC2 : Scraper :=
  { name := "C2", base_url := "https://c.example/", news_url := "/news/"
    article_selector := ".art", headline_selector := ".h", image_selector := none
    date_selector := ".d", parse_date := fun _ => Except.ok dt0
    link_selector := "a", body_selector := ".b" }

/-- entryBad is a listing entry whose link selector match has no href. -/
def entryBad : Entry := { selText := fun _ => "x", selAttr := fun _ _ => none }

/-- docCList is the SC2 listing page: one entry, which is entryBad. -/
def docCList : Doc :=
  { selMany := fun _ => [entryBad], selText := fun _ => ""
    selAttr := fun _ _ => none, selHtml := fun _ => "" }

/-- urlCNews is the SC2 listing URL. -/
def urlCNews : Url := { scheme := "https", host := "c.example", path := "/news/" }

/-- c2Client serves the SC2 listing and nothing else. -/
def c2Client : Client :=
  { fetch := fun u =>
      if u = urlCNews then Except.ok docCList
      else Except.error (ScrapeError.transport u.toString) }

/-- SC is the concrete source of the three-entry listing scenario. -/
def SC : Scraper :=
  { name := "C", base_url := "https://www.rte.ie/", news_url := "/news/"
    article_selector := ".art", headline_selector := ".h", image_selector := none
    date_selector := ".d", parse_date := fun _ => Except.ok dt0
    link_selector := "a", body_selector := ".b" }

/-- eA is the first listing entry of the scenario, with href /a. -/
def eA : Entry :=
  { selText := fun _ => "HA"
    selAttr := fun _ attr => if attr == "href" then some "/a" else none }

/-- eB is the second listing entry of the scenario, with href /b. -/
def eB : Entry :=
  { selText := fun _ => "HB"
    selAttr := fun _ attr => if attr == "href" then some "/b" else none }

/-- eC is the third listing entry of the scenario, with href /c. -/
def eC : Entry :=
  { selText := fun _ => "HC"
    selAttr := fun _ attr => if attr == "href" then some "/c" else none }

/-- urlRteNews is the listing URL of the scenario source. -/
def urlRteNews : Url := { scheme := "https", host := "www.rte.ie", path := "/news/" }

/-- urlPA is the resolved URL of the first scenario article. -/
def urlPA : Url := { scheme := "https", host := "www.rte.ie", path := "/a" }

/-- urlPB is the resolved URL of the second scenario article. -/
def urlPB : Url := { scheme := "https", host := "www.rte.ie", path := "/b" }

/-- urlPC is the resolved URL of the third scenario article. -/
def urlPC : Url := { scheme := "https", host := "www.rte.ie", path := "/c" }

/-- docPA is the article page at urlPA. -/
def docPA : Doc :=
  { selMany := fun _ => [], selText := fun _ => "da"
    selAttr := fun _ _ => none, selHtml := fun _ => "<p>a</p>" }

/-- docPB is the article page at urlPB. -/
def docPB : Doc :=
  { selMany := fun _ => [], selText := fun _ => "db"
    selAttr := fun _ _ => none, selHtml := fun _ => "<p>b</p>" }

/-- docPC is the article page at urlPC. -/
def docPC : Doc :=
  { selMany := fun _ => [], selText := fun _ => "dc"
    selAttr := fun _ _ => none, selHtml := fun _ => "<p>c</p>" }

/-- docCListing is the three-entry listing page of the scenario. -/
def docCListing : Doc :=
  { selMany := fun _ => [eA, eB, eC], selText := fun _ => ""
    selAttr := fun _ _ => none, selHtml := fun _ => "" }

/-- cl5 is the network state of the three-entry scenario: the listing and
the three article pages all fetch successfully. -/
def cl5 : Client :=
  { fetch := fun u =>
      if u = urlRteNews then Except.ok docCListing
      else if u = urlPA then Except.ok docPA
      else if u = urlPB then Except.ok docPB
      else if u = urlPC then Except.ok docPC
      else Except.error (ScrapeError.transport u.toString) }

/-- art1 is the article extracted from eA. -/
def art1 : Article :=
  { headline := "HA", link := urlPA, body := "<p>a</p>", image := none, date := dt0 }

/-- art2 is the article extracted from eB. -/
def art2 : Article :=
  { headline := "HB", link := urlPB, body := "<p>b</p>", image := none, date := dt0 }

/-- art3 is the article extracted from eC. -/
def art3 : Article :=
  { headline := "HC", link := urlPC, body := "<p>c</p>", image := none, date := dt0 }

/-- chBad is a chrono state in which the scenario date text does not parse
and the fallback also has no earliest Dublin interpretation. -/
def chBad : Chrono :=
  { parseFromStr := fun _ _ => none
    nowLocalDublin := { minutes := 0 }
    dublinFromLocalEarliest := fun _ => none }

/-- e4 is a listing entry of the RTE scenario, with href /news/x. -/
def e4 : Entry :=
  { selText := fun _ => "H4"
    selAttr := fun _ attr => if attr == "href" then some "/news/x" else none }

/-- url4 is the resolved URL of the RTE scenario article. -/
def url4 : Url := { scheme := "https", host := "www.rte.ie", path := "/news/x" }

/-- doc4 is the RTE scenario article page; its date text is malformed. -/
def doc4 : Doc :=
  { selMany := fun _ => [], selText := fun _ => "not a date"
    selAttr := fun _ _ => none, selHtml := fun _ => "<p>x</p>" }

/-- c4Client serves the RTE scenario article page. -/
def c4Client : Client :=
  { fetch := fun u =>
      if u = url4 then Except.ok doc4
      else Except.error (ScrapeError.transport u.toString) }

/-- r0 is a concrete rfc2822 rendering used by the feed scenarios. -/
def r0 : DateTime → String := fun d => "Thu, 1 Jan 1970 00:00:00 +0100 " ++ d.tz

/-- cacheEmpty is the cache before any successful refresh. -/
def cacheEmpty : Cache := { map := [] }

/-- cacheRteNil is a cache holding an empty article list for RTE. -/
def cacheRteNil : Cache := { map := [("RTE", [])] }

/-- cacheRte is a cache holding one article for RTE. -/
def cacheRte : Cache := { map := [("RTE", [artB1])] }

/-- Helper: an error among the joined outcomes makes try_join_all fail. -/
theorem try_join_all_error_of_mem {ε α : Type} (xs : List (Except ε α)) (e : ε)
    (hx : Except.error e ∈ xs) : ∃ e2, try_join_all xs = Except.error e2 := by
  induction xs with
  | nil => cases hx
  | cons x xs ih =>
    cases hx with
    | head => exact ⟨e, rfl⟩
    | tail _ hmem =>
      cases x with
      | error e3 => exact ⟨e3, rfl⟩
      | ok a =>
        obtain ⟨e2, h2⟩ := ih hmem
        exact ⟨e2, by simp [try_join_all, h2]⟩

/-- Helper: when every joined outcome is Ok of the corresponding result,
try_join_all collects exactly those results in order. -/
theorem try_join_all_ok_of_forall2 {ε α : Type} {xs : List (Except ε α)} {as : List α}
    (h : List.Forall₂ (fun x a => x = Except.ok a) xs as) :
    try_join_all xs = Except.ok as := by
  induction h with
  | nil => rfl
  | cons h1 _ ih => subst h1; simp [try_join_all, ih]

/-- Helper: a successful try_join_all relates the joined outcomes to the
collected results pairwise in order. -/
theorem forall2_of_try_join_all_ok {ε α : Type} :
    ∀ {xs : List (Except ε α)} {as : List α}, try_join_all xs = Except.ok as →
    List.Forall₂ (fun x a => x = Except.ok a) xs as := by
  intro xs
  induction xs with
  | nil =>
    intro as h
    simp [try_join_all] at h
    subst h
    exact List.Forall₂.nil
  | cons x xs ih =>
    intro as h
    cases x with
    | error e => simp [try_join_all] at h
    | ok a =>
      cases h2 : try_join_all (ε := ε) xs with
      | error e => simp [try_join_all, h2] at h
      | ok rest =>
        simp [try_join_all, h2] at h
        subst h
        exact List.Forall₂.cons rfl (ih h2)

/-- Helper: a failing cycle makes scrapeCycle fail whenever any configured
source fails to extract. -/
theorem scrapeCycle_error_of_mem (sources : List Scraper) (client : Client) (out : Cache)
    (s : Scraper) (hs : s ∈ sources) (e : ScrapeError)
    (he : s.get_articles client = Except.error e) :
    ∃ e2, scrapeCycle sources client out = Except.error e2 := by
  have hmem : Except.error e ∈ sources.map (fun x => x.get_articles client) := by
    have hm := List.mem_map_of_mem (fun x => x.get_articles client) hs
    simpa [he] using hm
  obtain ⟨e2, h2⟩ := try_join_all_error_of_mem _ e hmem
  exact ⟨e2, by simp [scrapeCycle, h2]⟩

/-- Helper: a cycle error stops scrapeRun at once with the cache as it
was. -/
theorem scrapeRun_cycle_error (sources : List Scraper) (client : Client)
    (rest : List Client) (out : Cache) (e : ScrapeError)
    (h : scrapeCycle sources client out = Except.error e) :
    scrapeRun sources (client :: rest) out = (out, some e) := by
  simp [scrapeRun, h]

/-- Helper: a successful per-entry extraction resolves its link from the
href of the entry against the base URL of the source. -/
theorem get_article_ok_link (s : Scraper) (client : Client) (a : Entry) (art : Article)
    (h : s.get_article client a = Except.ok art) :
    ∃ href, a.selAttr s.link_selector "href" = some href ∧
      s.url href = Except.ok art.link := by
  unfold Scraper.get_article at h
  cases h1 : a.selAttr s.link_selector "href" with
  | none => simp [h1] at h
  | some href =>
    cases h2 : s.url href with
    | error e => simp [h1, h2] at h
    | ok link =>
      cases h3 : client.fetch link with
      | error e => simp [h1, h2, h3] at h
      | ok document =>
        cases h4 : imageOf s document with
        | error e => simp [h1, h2, h3, h4] at h
        | ok image =>
          cases h5 : s.parse_date (document.selText s.date_selector) with
          | error e => simp [h1, h2, h3, h4, h5] at h
          | ok date =>
            simp [h1, h2, h3, h4, h5] at h
            subst h
            exact ⟨href, rfl, h2⟩

/-- Claim C1, counterexample: in the concrete cycle the extraction of
source SA fails with a transport error while that of SB succeeds with a
new nonempty article list, yet after the cycle the cache entry of SB
still holds its old empty list: the successful source is not committed,
refuting the claim that the entry of B is updated. -/
theorem C1_counterexample :
    SA.get_articles cxClient
      = Except.error (ScrapeError.transport "https://a.example/news/") ∧
    SB.get_articles cxClient = Except.ok [artB1] ∧
    (scrapeRun [SA, SB] [cxClient] cache0).1.get "B" = some [] ∧
    [artB1] ≠ ([] : List Article) :=
  ⟨rfl, rfl, rfl, List.cons_ne_nil artB1 []⟩

/-- Claim C1 (amended): the refresh cycle is all-or-nothing across
sources: when the extraction of one configured source fails, the joined
cycle fails before any cache write, so even a source whose extraction
succeeded in the same cycle keeps its previous cache entry unchanged. -/
theorem C1_cycle_all_or_nothing (sources : List Scraper) (client : Client)
    (rest : List Client) (out : Cache) (sA sB : Scraper) (hA : sA ∈ sources)
    (e : ScrapeError) (hAe : sA.get_articles client = Except.error e)
    (arts : List Article) (hBo : sB.get_articles client = Except.ok arts) :
    (∃ e2, scrapeCycle sources client out = Except.error e2) ∧
    (scrapeRun sources (client :: rest) out).1.get sB.name = out.get sB.name := by
  obtain ⟨e2, h2⟩ := scrapeCycle_error_of_mem sources client out sA hA e hAe
  refine ⟨⟨e2, h2⟩, ?_⟩
  rw [scrapeRun_cycle_error sources client rest out e2 h2]

/-- Claim C1, witness: the amended statement applied to the concrete
cycle in which SA fails and SB succeeds. -/
theorem C1_witness :
    SB.get_articles cxClient = Except.ok [artB1] ∧
    ((∃ e2, scrapeCycle [SA, SB] cxClient cache0 = Except.error e2) ∧
      (scrapeRun [SA, SB] [cxClient] cache0).1.get SB.name = cache0.get SB.name) :=
  ⟨rfl, C1_cycle_all_or_nothing [SA, SB] cxClient [] cache0 SA SB
    (List.Mem.head _) _ rfl [artB1] rfl⟩

/-- Claim C8: a cycle in which the extraction of a configured source
fails commits nothing: the whole cache, and in particular the entry of
the failing source, is exactly as it was before the cycle — neither
cleared, nor partially overwritten, nor replaced. -/
theorem C8_failed_cycle_preserves_entry (sources : List Scraper) (client : Client)
    (rest : List Client) (out : Cache) (s : Scraper) (hs : s ∈ sources)
    (e : ScrapeError) (he : s.get_articles client = Except.error e) :
    (scrapeRun sources (client :: rest) out).1.get s.name = out.get s.name ∧
    (scrapeRun sources (client :: rest) out).1 = out := by
  obtain ⟨e2, h2⟩ := scrapeCycle_error_of_mem sources client out s hs e he
  rw [scrapeRun_cycle_error sources client rest out e2 h2]
  exact ⟨rfl, rfl⟩

/-- Claim C8, witness: the failed concrete cycle leaves the cache, and
the entry of the failing source SA, untouched. -/
theorem C8_witness :
    SA.get_articles cxClient
      = Except.error (ScrapeError.transport "https://a.example/news/") ∧
    ((scrapeRun [SA, SB] [cxClient] cache0).1.get SA.name = cache0.get SA.name ∧
      (scrapeRun [SA, SB] [cxClient] cache0).1 = cache0) :=
  ⟨rfl, C8_failed_cycle_preserves_entry [SA, SB] cxClient [] cache0 SA
    (List.Mem.head _) _ rfl⟩

/-- Claim C10: the scrape loop has no error recovery: as soon as the
extraction of any configured source fails in a cycle, scrape returns an
error with the cache unchanged, and the outcome is independent of
whatever later cycles would have held — no further refresh cycle runs
and the cache is never updated again. -/
theorem C10_no_recovery (sources : List Scraper) (client : Client) (out : Cache)
    (s : Scraper) (hs : s ∈ sources) (e : ScrapeError)
    (he : s.get_articles client = Except.error e) :
    ∃ e2, ∀ rest : List Client,
      scrapeRun sources (client :: rest) out = (out, some e2) := by
  obtain ⟨e2, h2⟩ := scrapeCycle_error_of_mem sources client out s hs e he
  exact ⟨e2, fun rest => scrapeRun_cycle_error sources client rest out e2 h2⟩

/-- Claim C10, witness: the concrete failing cycle stops the loop with
the cache frozen, whatever cycles would have followed. -/
theorem C10_witness :
    SA.get_articles cxClient
      = Except.error (ScrapeError.transport "https://a.example/news/") ∧
    ∃ e2, ∀ rest : List Client,
      scrapeRun [SA, SB] (cxClient :: rest) cache0 = (cache0, some e2) :=
  ⟨rfl, C10_no_recovery [SA, SB] cxClient cache0 SA (List.Mem.head _) _ rfl⟩

/-- Claim C2: extraction is all-or-nothing per source: when the listing
page fetches and any single selected entry fails to extract — whatever
the error kind (transport, missing href, missing image src, date-parse
failure) — get_articles returns an error for the whole source, producing
no partial article list. -/
theorem C2_all_or_nothing (s : Scraper) (client : Client) (u : Url) (news : Doc)
    (a : Entry) (e : ScrapeError)
    (hu : s.url s.news_url = Except.ok u)
    (hf : client.fetch u = Except.ok news)
    (ha : a ∈ news.selMany s.article_selector)
    (he : s.get_article client a = Except.error e) :
    ∃ e2, s.get_articles client = Except.error e2 := by
  have hmem : Except.error e
      ∈ (news.selMany s.article_selector).map (fun x => s.get_article client x) := by
    have hm := List.mem_map_of_mem (fun x => s.get_article client x) ha
    simpa [he] using hm
  obtain ⟨e2, h2⟩ := try_join_all_error_of_mem _ e hmem
  exact ⟨e2, by simp [Scraper.get_articles, hu, hf, h2]⟩

/-- Claim C2, witness: a listing with a single entry whose link has no
href makes the whole extraction of SC2 fail. -/
theorem C2_witness :
    SC2.get_article c2Client entryBad
      = Except.error (ScrapeError.missingAttr "Require article link to have href") ∧
    ∃ e2, SC2.get_articles c2Client = Except.error e2 :=
  ⟨rfl, C2_all_or_nothing SC2 c2Client urlCNews docCList entryBad _ rfl rfl
    (List.Mem.head _) rfl⟩

/-- Claim C3: when the listing fetches and every selected entry extracts
successfully, get_articles returns Ok of exactly those articles: the list
is related pairwise in order to the entry list, so the article count
equals the entry count and the i-th article is extracted from the i-th
entry in document order — the concurrent fan-out does not reorder
results. -/
theorem C3_order_preserved (s : Scraper) (client : Client) (u : Url) (news : Doc)
    (arts : List Article)
    (hu : s.url s.news_url = Except.ok u)
    (hf : client.fetch u = Except.ok news)
    (h : List.Forall₂ (fun a art => s.get_article client a = Except.ok art)
      (news.selMany s.article_selector) arts) :
    s.get_articles client = Except.ok arts ∧
    arts.length = (news.selMany s.article_selector).length := by
  constructor
  · have h2 : List.Forall₂ (fun x art => x = Except.ok art)
        ((news.selMany s.article_selector).map (fun a => s.get_article client a)) arts :=
      List.forall₂_map_left_iff.mpr h
    simp only [Scraper.get_articles, hu, hf]
    exact try_join_all_ok_of_forall2 h2
  · exact (List.Forall₂.length_eq h).symm

/-- Claim C3, witness: the three-entry scenario listing yields exactly
the three articles in document order. -/
theorem C3_witness :
    SC.get_articles cl5 = Except.ok [art1, art2, art3] ∧
    ([art1, art2, art3] : List Article).length
      = (docCListing.selMany SC.article_selector).length :=
  C3_order_preserved SC cl5 urlRteNews docCListing [art1, art2, art3] rfl rfl
    (List.Forall₂.cons rfl (List.Forall₂.cons rfl
      (List.Forall₂.cons rfl List.Forall₂.nil)))

/-- Claim C5: every article a successful get_articles returns carries as
its link the absolute URL obtained by resolving the href of its
originating entry against the base URL of the source, pairwise in
listing order. -/
theorem C5_links_resolved (s : Scraper) (client : Client) (u : Url) (news : Doc)
    (arts : List Article)
    (hu : s.url s.news_url = Except.ok u)
    (hf : client.fetch u = Except.ok news)
    (h : s.get_articles client = Except.ok arts) :
    List.Forall₂ (fun a art => ∃ href,
        a.selAttr s.link_selector "href" = some href ∧
        s.url href = Except.ok art.link)
      (news.selMany s.article_selector) arts := by
  have h2 : try_join_all
      ((news.selMany s.article_selector).map (fun a => s.get_article client a))
      = Except.ok arts := by
    simpa [Scraper.get_articles, hu, hf] using h
  have h3 := forall2_of_try_join_all_ok h2
  have h4 : List.Forall₂ (fun a art => s.get_article client a = Except.ok art)
      (news.selMany s.article_selector) arts := List.forall₂_map_left_iff.mp h3
  exact h4.imp (fun a art hx => get_article_ok_link s client a art hx)

/-- Claim C5, witness: the listing with hrefs /a, /b, /c yields three
articles whose links render as the base followed by /a, /b, /c in that
order, each resolved from its entry. -/
theorem C5_witness :
    SC.get_articles cl5 = Except.ok [art1, art2, art3] ∧
    art1.link.toString = "https://www.rte.ie/a" ∧
    art2.link.toString = "https://www.rte.ie/b" ∧
    art3.link.toString = "https://www.rte.ie/c" ∧
    List.Forall₂ (fun a art => ∃ href,
        a.selAttr SC.link_selector "href" = some href ∧
        SC.url href = Except.ok art.link)
      (docCListing.selMany SC.article_selector) [art1, art2, art3] :=
  ⟨rfl, rfl, rfl, rfl,
    C5_links_resolved SC cl5 urlRteNews docCListing [art1, art2, art3] rfl rfl rfl⟩

/-- Claim C4: for the RTE source, when the date text does not match the
expected pattern (parse_from_str yields nothing for rteFmt) and no
fallback recovers it (the current-local-time fallback has no earliest
Dublin interpretation either), parse_date fails with the date-parse
error No local date, and the extraction of that article fails with the
same error. -/
theorem C4_rte_date_parse_error (ch : Chrono) (client : Client) (a : Entry)
    (document : Doc) (href : String) (link : Url) (dtext : String)
    (hdt : document.selText (RTE ch).date_selector = dtext)
    (hp : ch.parseFromStr (strTrim dtext) rteFmt = none)
    (hfb : ch.dublinFromLocalEarliest ch.nowLocalDublin = none)
    (hh : a.selAttr (RTE ch).link_selector "href" = some href)
    (hu : (RTE ch).url href = Except.ok link)
    (hf : client.fetch link = Except.ok document) :
    (RTE ch).parse_date dtext = Except.error (ScrapeError.dateParse "No local date") ∧
    (RTE ch).get_article client a
      = Except.error (ScrapeError.dateParse "No local date") := by
  have hpd : rte_parse_date ch dtext
      = Except.error (ScrapeError.dateParse "No local date") := by
    simp [rte_parse_date, hp, hfb]
  refine ⟨hpd, ?_⟩
  have himg : imageOf (RTE ch) document = Except.ok none := rfl
  have hpd2 : (RTE ch).parse_date dtext
      = Except.error (ScrapeError.dateParse "No local date") := hpd
  simp only [Scraper.get_article, hh, hu, hf, himg, hdt, hpd2]

/-- Claim C4, witness: the malformed date text of the scenario, with a
chrono state in which the fallback does not recover either, makes the
RTE date parse and the whole article extraction fail. -/
theorem C4_witness :
    chBad.parseFromStr (strTrim "not a date") rteFmt = none ∧
    chBad.dublinFromLocalEarliest chBad.nowLocalDublin = none ∧
    ((RTE chBad).parse_date "not a date"
        = Except.error (ScrapeError.dateParse "No local date") ∧
      (RTE chBad).get_article c4Client e4
        = Except.error (ScrapeError.dateParse "No local date")) :=
  ⟨rfl, rfl, C4_rte_date_parse_error chBad c4Client e4 doc4 "/news/x" url4
    "not a date" rfl rfl rfl rfl rfl rfl⟩

/-- Claim C6: a feed request for a source with no cache entry is answered
with status 404 and no body, while a cached empty article list is
answered with success carrying a feed with zero items: the two outcomes
are distinguishable. -/
theorem C6_not_found_vs_empty (to_rfc2822 : DateTime → String) (feeds : Cache)
    (name : String) :
    (feeds.get name = none → feed to_rfc2822 feeds name = Except.error NOT_FOUND) ∧
    (feeds.get name = some [] →
      feed to_rfc2822 feeds name = Except.ok { title := name, items := [] }) ∧
    NOT_FOUND = 404 :=
  ⟨fun h => by simp [feed, h], fun h => by simp [feed, h], rfl⟩

/-- Claim C6, witness: before any refresh the RTE feed request yields
404, while a cached empty list yields a successful empty feed. -/
theorem C6_witness :
    (cacheEmpty.get "RTE" = none ∧
      feed r0 cacheEmpty "RTE" = Except.error NOT_FOUND) ∧
    (cacheRteNil.get "RTE" = some [] ∧
      feed r0 cacheRteNil "RTE" = Except.ok { title := "RTE", items := [] }) :=
  ⟨⟨rfl, (C6_not_found_vs_empty r0 cacheEmpty "RTE").1 rfl⟩,
    ⟨rfl, (C6_not_found_vs_empty r0 cacheRteNil "RTE").2.1 rfl⟩⟩

/-- Claim C7: for a cached article list the feed handler builds items 1:1
in cache order: the channel is titled with the source name, the item
count equals the cached article count, and pairwise each item takes its
title from the headline, its guid (marked permalink) and its link from
the article link, its publication date from the rfc2822 rendering of the
date, and its content from the body verbatim. -/
theorem C7_items_one_to_one (to_rfc2822 : DateTime → String) (feeds : Cache)
    (name : String) (arts : List Article) (h : feeds.get name = some arts) :
    ∃ ch, feed to_rfc2822 feeds name = Except.ok ch ∧ ch.title = name ∧
      ch.items.length = arts.length ∧
      List.Forall₂ (fun art it => it.title = art.headline ∧
        it.guid = { value := art.link.toString, permalink := true } ∧
        it.link = art.link.toString ∧
        it.pub_date = to_rfc2822 art.date ∧
        it.content = art.body) arts ch.items := by
  refine ⟨{ title := name, items := arts.map (itemOf to_rfc2822) },
    by simp [feed, h], rfl, by simp, ?_⟩
  rw [show ({ title := name, items := arts.map (itemOf to_rfc2822) } : Channel).items
    = arts.map (itemOf to_rfc2822) from rfl]
  rw [List.forall₂_map_right_iff]
  rw [List.forall₂_same]
  intro a _
  exact ⟨rfl, rfl, rfl, rfl, rfl⟩

/-- Claim C7, witness: the one-article cache yields a channel titled RTE
whose single item mirrors the cached article field by field. -/
theorem C7_witness :
    cacheRte.get "RTE" = some [artB1] ∧
    ∃ ch, feed r0 cacheRte "RTE" = Except.ok ch ∧ ch.title = "RTE" ∧
      ch.items.length = ([artB1] : List Article).length ∧
      List.Forall₂ (fun art it => it.title = art.headline ∧
        it.guid = { value := art.link.toString, permalink := true } ∧
        it.link = art.link.toString ∧
        it.pub_date = r0 art.date ∧
        it.content = art.body) [artB1] ch.items :=
  ⟨rfl, C7_items_one_to_one r0 cacheRte "RTE" [artB1] rfl⟩

/-- Claim C9: the refresh loop and the feed server are composed by the
select expression in main as siblings: whichever of the two tasks
terminates first, main returns that task result (errors propagated by
the question-mark operator), so the whole process stops rather than
continuing with only the surviving task. -/
theorem C9_siblings_fail_fast (r : Except ScrapeError Unit) :
    mainAfterSelect (TaskEnd.server r) = r ∧
    mainAfterSelect (TaskEnd.scrape r) = r := by
  cases r with
  | ok a => cases a; exact ⟨rfl, rfl⟩
  | error e => exact ⟨rfl, rfl⟩
